import Mathlib

/-!
Shallow embedding of `accelerate_DDP.py`, a distributed image-classifier
training script, together with theorems checking its natural-language
specification.  Pure configuration values, transform pipelines, data-loader
settings and scheduler parameters are embedded as Lean data; the script's
control flow (a strictly sequential per-process program) is embedded as an
event trace; the metric accumulators are embedded as explicit list-valued
state threaded through the epoch loop.
-/

namespace AccelerateDDP

/-! ## Configuration loader (lines 22-37)

The script reads a YAML document into `cfg_dict` and extracts seven entries
with `cfg_dict.get(key)`.  A YAML scalar relevant here is an integer, a
rational, a string, or a list of device indices. -/

inductive CfgValue where
  | natV (n : Nat)
  | ratV (q : Rat)
  | strV (s : String)
  | devListV (l : List Nat)
deriving DecidableEq

/-- A YAML mapping, as an association list; `cfg_dict.get(k)` is the first
binding of `k` (Python dict keys are unique, so first = only). -/
abbrev CfgDoc := List (String × CfgValue)

def cfgGet (d : CfgDoc) (k : String) : Option CfgValue :=
  Option.map Prod.snd (List.find? (fun p => p.1 == k) d)

/-- The seven variables set on lines 31-37 of the script, each an optional
value exactly as `dict.get` returns. -/
structure RawConfig where
  visible_device : Option CfgValue
  batchsize : Option CfgValue
  num_workers : Option CfgValue
  num_epoches : Option CfgValue
  lr : Option CfgValue
  weight_decay : Option CfgValue
  save_dir : Option CfgValue
deriving DecidableEq

/-- Lines 31-37: `visible_device = cfg_dict.get("device")`, etc. -/
def loadConfig (d : CfgDoc) : RawConfig where
  visible_device := cfgGet d "device"
  batchsize := cfgGet d "batch_size"
  num_workers := cfgGet d "num_workers"
  num_epoches := cfgGet d "epoch"
  lr := cfgGet d "lr"
  weight_decay := cfgGet d "weight_decay"
  save_dir := cfgGet d "save_dir"

def configKeys : List String :=
  ["device", "batch_size", "num_workers", "epoch", "lr", "weight_decay", "save_dir"]

/-! ## Image transform pipelines (lines 39-54) -/

inductive Transform where
  | pilToTensor
  | resize (h w : Nat) (antialias : Bool)
  | randomCrop (h w : Nat)
  | zeroOneNormalize
  | normalize (mean sd : List Rat)
deriving DecidableEq

def imagenet_mean : List Rat := [485/1000, 456/1000, 406/1000]
def imagenet_std : List Rat := [229/1000, 224/1000, 225/1000]

/-- Lines 39-45. -/
def train_transforms_list : List Transform :=
  [Transform.pilToTensor,
   Transform.resize 256 256 true,
   Transform.randomCrop 224 224,
   Transform.zeroOneNormalize,
   Transform.normalize imagenet_mean imagenet_std]

/-- Lines 46-51: the validation pipeline resizes directly to 224x224. -/
def val_transforms_list : List Transform :=
  [Transform.pilToTensor,
   Transform.resize 224 224 true,
   Transform.zeroOneNormalize,
   Transform.normalize imagenet_mean imagenet_std]

/-- The coarse stage of a transform, in the vocabulary of the system
overview: `PILToTensor` decodes the PIL image into a tensor, both
normalizations re-scale pixel statistics. -/
inductive TKind where
  | decode
  | resizeK
  | crop
  | normalizeK
deriving DecidableEq

def Transform.kind : Transform → TKind
  | Transform.pilToTensor => TKind.decode
  | Transform.resize _ _ _ => TKind.resizeK
  | Transform.randomCrop _ _ => TKind.crop
  | Transform.zeroOneNormalize => TKind.normalizeK
  | Transform.normalize _ _ => TKind.normalizeK

/-! ## Data loaders and batching (lines 65-68)

`DataLoader(dataset, batch_size, drop_last, shuffle, num_workers)` settings
are embedded as a record; the batch stream it yields over a given ordering
of the dataset is `batchesOf`. -/

structure LoaderSpec (α : Type) where
  dataset : List α
  batch_size : Nat
  drop_last : Bool
  shuffle : Bool
  num_workers : Nat

/-- Line 65-66: `DataLoader(cifar10_train, batch_size=batchsize,
drop_last=True, shuffle=True, num_workers=num_workers)`. -/
def train_data_loader (ds : List α) (bs nw : Nat) : LoaderSpec α :=
  ⟨ds, bs, true, true, nw⟩

/-- Line 67-68: `DataLoader(cifar10_test, batch_size=batchsize,
drop_last=False, shuffle=False, num_workers=num_workers)`. -/
def test_data_loader (ds : List α) (bs nw : Nat) : LoaderSpec α :=
  ⟨ds, bs, false, false, nw⟩

/-- The list of batches a PyTorch loader yields from the ordered sequence
`xs`: full chunks of `bs`, the trailing short chunk kept or dropped
according to `drop_last`.  (`batch_size = 0` is rejected by PyTorch; the
model yields no batches there.) -/
def batchesOf (bs : Nat) (dl : Bool) (xs : List α) : List (List α) :=
  if _h : bs = 0 ∨ xs.length = 0 then []
  else if bs ≤ xs.length then
    xs.take bs :: batchesOf bs dl (xs.drop bs)
  else if dl then [] else [xs]
termination_by xs.length
decreasing_by
  simp only [List.length_drop]
  omega

/-- The number of batches the loader yields, i.e. Python `len(loader)`. -/
def loaderLen (L : LoaderSpec α) : Nat :=
  (batchesOf L.batch_size L.drop_last L.dataset).length

theorem batchesOf_nil (bs : Nat) (dl : Bool) :
    batchesOf bs dl ([] : List α) = [] := by
  rw [batchesOf]
  simp

theorem batchesOf_drop_length (bs : Nat) (hbs : 0 < bs) (xs : List α) :
    (batchesOf bs true xs).length = xs.length / bs := by
  generalize hn : xs.length = n
  induction n using Nat.strong_induction_on generalizing xs with
  | _ n ih =>
    subst hn
    rw [batchesOf]
    by_cases h0 : bs = 0 ∨ xs.length = 0
    · rcases h0 with h0 | h0
      · omega
      · rw [dif_pos (Or.inr h0)]
        simp [Nat.eq_zero_of_le_zero (Nat.le_of_eq h0), Nat.zero_div, h0]
    · rw [dif_neg h0]
      have hxpos : 0 < xs.length := by omega
      by_cases hle : bs ≤ xs.length
      · rw [if_pos hle]
        have hdrop : (xs.drop bs).length = xs.length - bs := List.length_drop ..
        have hlt : (xs.drop bs).length < xs.length := by omega
        have := ih (xs.drop bs).length hlt (xs.drop bs) rfl
        simp only [List.length_cons, this, hdrop]
        rw [Nat.div_eq_sub_div hbs hle]
      · rw [if_neg hle]
        have : xs.length / bs = 0 := Nat.div_eq_of_lt (by omega)
        simp [this]

theorem batchesOf_drop_mem_length (bs : Nat) (xs : List α) :
    ∀ b ∈ batchesOf bs true xs, b.length = bs := by
  generalize hn : xs.length = n
  induction n using Nat.strong_induction_on generalizing xs with
  | _ n ih =>
    subst hn
    intro b hb
    rw [batchesOf] at hb
    by_cases h0 : bs = 0 ∨ xs.length = 0
    · rw [dif_pos h0] at hb; simp at hb
    · rw [dif_neg h0] at hb
      have hxpos : 0 < xs.length := by omega
      by_cases hle : bs ≤ xs.length
      · rw [if_pos hle] at hb
        rcases List.mem_cons.mp hb with hb | hb
        · subst hb; exact List.length_take_of_le hle
        · have hdrop : (xs.drop bs).length = xs.length - bs := List.length_drop ..
          have hlt : (xs.drop bs).length < xs.length := by omega
          exact ih (xs.drop bs).length hlt (xs.drop bs) rfl b hb
      · rw [if_neg hle] at hb
        simp at hb

theorem batchesOf_keep_flatten (bs : Nat) (hbs : 0 < bs) (xs : List α) :
    (batchesOf bs false xs).flatten = xs := by
  generalize hn : xs.length = n
  induction n using Nat.strong_induction_on generalizing xs with
  | _ n ih =>
    subst hn
    rw [batchesOf]
    by_cases h0 : bs = 0 ∨ xs.length = 0
    · rcases h0 with h0 | h0
      · omega
      · rw [dif_pos (Or.inr h0)]
        exact (List.eq_nil_of_length_eq_zero h0).symm
    · rw [dif_neg h0]
      have hxpos : 0 < xs.length := by omega
      by_cases hle : bs ≤ xs.length
      · rw [if_pos hle]
        have hdrop : (xs.drop bs).length = xs.length - bs := List.length_drop ..
        have hlt : (xs.drop bs).length < xs.length := by omega
        have := ih (xs.drop bs).length hlt (xs.drop bs) rfl
        simp only [List.flatten_cons, this, List.take_append_drop]
      · rw [if_neg hle]
        simp

/-! ## Model, optimizer, scheduler assembly (lines 72-76) -/

inductive ModelSpec where
  | resnet50 (weights : String)
deriving DecidableEq

/-- Line 72: `torchvision.models.resnet50(weights=ResNet50_Weights.IMAGENET1K_V1)`. -/
def model : ModelSpec := ModelSpec.resnet50 "IMAGENET1K_V1"

structure OptimSpec where
  algorithm : String
  lr : Rat
  weight_decay : Rat
deriving DecidableEq

/-- Line 73: `torch.optim.SGD(model.parameters(), lr=lr, weight_decay=weight_decay)`. -/
def buildOptimizer (lr wd : Rat) : OptimSpec := ⟨"SGD", lr, wd⟩

structure SchedSpec where
  shape : String
  num_warmup_steps : Nat
  num_training_steps : Nat
deriving DecidableEq

/-- Lines 75-76: `get_cosine_schedule_with_warmup(optimizer, num_warmup_steps=10,
num_training_steps=len(train_data_loader) * num_epoches)`. -/
def buildScheduler (trainLoaderLen num_epoches : Nat) : SchedSpec :=
  ⟨"cosine_with_warmup", 10, trainLoaderLen * num_epoches⟩

/-! ## Event trace of the per-process control flow (lines 56-159)

Each observable action of the script is an `Op`; operations that the
distributed-training library implements as collectives over all
participating processes (`torch.distributed.barrier`,
`accelerator.backward`'s gradient all-reduce, `accelerator.gather`, and the
gather inside the per-epoch `evaluate_accuracy_and_loss`) are the
synchronization points. -/

inductive Op where
  | printOut
  | barrier
  | downloadTrain
  | downloadTest
  | lrRecord
  | forwardPass
  | lossCompute
  | zeroGrad
  | backwardPass
  | optimStep
  | gatherLabels
  | gatherPreds
  | gatherLossVals
  | schedulerStep
  | evalPass
  | appendMetrics
  | printEpochStats
  | readMemory
  | printMemory
  | printDuration
  | plotLoss
  | plotAccuracy
  | plotLR
  | saveFigure
  | showFigure
deriving DecidableEq

/-- Lines 97-123, the body of `for batch_idx, (X, y) in enumerate(...)`:
record the current learning rate, forward pass, loss, `zero_grad`,
`accelerator.backward`, `optimizer.step()`, the three `accelerator.gather`
calls, the progress print guarded by `batch_idx % 20 == 0 and
local_rank == 0`, and `lr_scheduler.step()`. -/
def trainBatchTrace (local_rank : Int) (batch_idx : Nat) : List Op :=
  [Op.lrRecord, Op.forwardPass, Op.lossCompute, Op.zeroGrad,
   Op.backwardPass, Op.optimStep,
   Op.gatherLabels, Op.gatherPreds, Op.gatherLossVals] ++
  (if batch_idx % 20 = 0 ∧ local_rank = 0 then [Op.printOut] else []) ++
  [Op.schedulerStep]

/-- Lines 91-136, the body of `for epoch in range(num_epoches)` with `nb`
training batches: all batch iterations, then `model.eval()` and the single
`evaluate_accuracy_and_loss` call, the four metric appends, the epoch-stats
print, `max_memory_allocated()` and the memory print. -/
def epochTrace (local_rank : Int) (nb : Nat) : List Op :=
  ((List.range nb).map (trainBatchTrace local_rank)).flatten ++
  [Op.evalPass, Op.appendMetrics, Op.printEpochStats, Op.readMemory, Op.printMemory]

/-- Lines 91-136: the whole training loop. -/
def trainingTrace (local_rank : Int) (nb num_epoches : Nat) : List Op :=
  ((List.range num_epoches).map (fun _ => epochTrace local_rank nb)).flatten

/-- Lines 137-159, everything after the loop: the duration print, then —
only on `local_rank == 0` — the three subplot groups, `plt.savefig` and
`plt.show`. -/
def reportTrace (local_rank : Int) : List Op :=
  [Op.printDuration] ++
  (if local_rank = 0 then
    [Op.plotLoss, Op.plotAccuracy, Op.plotLR, Op.saveFigure, Op.showFigure]
   else [])

/-- Lines 56-159: non-zero ranks (`local_rank not in [-1, 0]`) enter the
barrier before the two dataset downloads, rank 0 enters it after; then the
train/test size print (line 70), the training loop and the reporting. -/
def programTrace (local_rank : Int) (nb num_epoches : Nat) : List Op :=
  (if local_rank = -1 ∨ local_rank = 0 then [] else [Op.barrier]) ++
  [Op.downloadTrain, Op.downloadTest] ++
  (if local_rank = 0 then [Op.barrier] else []) ++
  [Op.printOut] ++
  trainingTrace local_rank nb num_epoches ++
  reportTrace local_rank

/-- The operations the distributed-training library realizes as collective
communication across the worker processes.  `evalPass` is included as a
synchronization point following the specification's statement that metric
aggregation happens each epoch: the body of `evaluate_accuracy_and_loss`
lives in `utils.py`, outside this file's sources, and is modelled from the
spec as aggregating across processes. -/
def isSync : Op → Bool
  | Op.barrier => true
  | Op.backwardPass => true
  | Op.gatherLabels => true
  | Op.gatherPreds => true
  | Op.gatherLossVals => true
  | Op.evalPass => true
  | _ => false

/-! ## Metric accumulators (lines 84-131)

The numeric values appended come from the training library (losses,
accuracies, the scheduler's current learning rate); they enter the model as
oracle functions `lrAt` (learning rate at a global step) and `statsAt`
(per-epoch train accuracy, train loss, validation accuracy, validation
loss).  What the script itself determines is where and how often each list
grows. -/

structure Metrics where
  train_acc : List Rat
  train_loss : List Rat
  val_acc : List Rat
  val_loss : List Rat
  lr_decay_list : List Rat
deriving DecidableEq

/-- Lines 84-88: the five accumulators start empty. -/
def Metrics.init : Metrics := ⟨[], [], [], [], []⟩

/-- Line 98, executed once per training batch:
`lr_decay_list.append(optimizer.state_dict()["param_groups"][0]["lr"])`. -/
def recordLR (lrNow : Rat) (m : Metrics) : Metrics :=
  { m with lr_decay_list := m.lr_decay_list ++ [lrNow] }

/-- One epoch of metric updates (lines 97-131): the per-batch learning-rate
append for each of the `nb` batches, then the four per-epoch appends
`train_acc.append`, `train_loss.append`, `val_acc.append`,
`val_loss.append`. -/
def runEpochMetrics (lrAt : Nat → Rat) (statsAt : Nat → Rat × Rat × Rat × Rat)
    (nb epoch : Nat) (m : Metrics) : Metrics :=
  let afterBatches :=
    (List.range nb).foldl (fun acc b => recordLR (lrAt (epoch * nb + b)) acc) m
  { afterBatches with
    train_acc := afterBatches.train_acc ++ [(statsAt epoch).1],
    train_loss := afterBatches.train_loss ++ [(statsAt epoch).2.1],
    val_acc := afterBatches.val_acc ++ [(statsAt epoch).2.2.1],
    val_loss := afterBatches.val_loss ++ [(statsAt epoch).2.2.2] }

/-- Lines 84-131: the accumulators after the whole `for epoch in
range(num_epoches)` loop. -/
def runTrainingMetrics (lrAt : Nat → Rat) (statsAt : Nat → Rat × Rat × Rat × Rat)
    (nb num_epoches : Nat) : Metrics :=
  (List.range num_epoches).foldl
    (fun m epoch => runEpochMetrics lrAt statsAt nb epoch m) Metrics.init

/-! ## Reporting outputs (lines 141-159) -/

/-- Line 158: the figure file name is built from the script's own base name,
`os.path.splitext(os.path.basename(__file__))[0]`. -/
def scriptBaseName : String := "accelerate_DDP"

/-- Line 158: `os.path.join(save_dir, "{}.jpg".format(...))`. -/
def savefigPath (save_dir : String) : String :=
  save_dir ++ "/" ++ scriptBaseName ++ ".jpg"

structure ReportOut where
  plotTitles : List String
  images : List String
deriving DecidableEq

/-- Lines 141-159: only the `local_rank == 0` process draws the three
subplots (Loss, Accuracy, Learning Rate) and calls `plt.savefig` exactly
once. -/
def reportOut (local_rank : Int) (save_dir : String) : ReportOut :=
  if local_rank = 0 then
    ⟨["Loss", "Accuracy", "Learning Rate"], [savefigPath save_dir]⟩
  else ⟨[], []⟩

/-! ## The run downstream of the configuration reads (lines 31-159)

Bundling every configuration-dependent artifact produced after the
variables of lines 31-37 are read: loader settings, assembly, event trace,
metric accumulators and reporting outputs.  `none` models the crash Python
would raise when a required key is missing or ill-typed. -/

structure RunOutcome (α β : Type) where
  trainLoader : LoaderSpec α
  testLoader : LoaderSpec β
  arch : ModelSpec
  optim : OptimSpec
  sched : SchedSpec
  trace : List Op
  metrics : Metrics
  report : ReportOut

def runFromConfig (c : RawConfig) (local_rank : Int)
    (train_ds : List α) (test_ds : List β)
    (lrAt : Nat → Rat) (statsAt : Nat → Rat × Rat × Rat × Rat) :
    Option (RunOutcome α β) :=
  match c.batchsize, c.num_workers, c.num_epoches, c.lr, c.weight_decay, c.save_dir with
  | some (CfgValue.natV bs), some (CfgValue.natV nw), some (CfgValue.natV ep),
    some (CfgValue.ratV l), some (CfgValue.ratV wd), some (CfgValue.strV sd) =>
      let tl := train_data_loader train_ds bs nw
      let nb := loaderLen tl
      some { trainLoader := tl,
             testLoader := test_data_loader test_ds bs nw,
             arch := model,
             optim := buildOptimizer l wd,
             sched := buildScheduler nb ep,
             trace := programTrace local_rank nb ep,
             metrics := runTrainingMetrics lrAt statsAt nb ep,
             report := reportOut local_rank sd }
  | _, _, _, _, _, _ => none

/-- The per-batch operations named by the training-order description
(forward, loss, gradient zeroing, backward, optimizer step, scheduler
step), together with the per-epoch evaluation pass. -/
def isLoopCoreOp : Op → Bool
  | Op.forwardPass => true
  | Op.lossCompute => true
  | Op.zeroGrad => true
  | Op.backwardPass => true
  | Op.optimStep => true
  | Op.schedulerStep => true
  | Op.evalPass => true
  | _ => false

/-- Synchronization points plus the two dataset downloads they bracket. -/
def isSyncOrDownload (o : Op) : Bool :=
  isSync o || o == Op.downloadTrain || o == Op.downloadTest

/-! ## Theorems -/

theorem filter_flatten_range {β : Type} (p : β → Bool) (f : Nat → List β)
    (c : List β) (n : Nat) (hf : ∀ i, (f i).filter p = c) :
    (((List.range n).map f).flatten).filter p = (List.replicate n c).flatten := by
  induction n with
  | zero => rfl
  | succ n ih =>
      rw [List.range_succ, List.map_append, List.flatten_append,
        List.filter_append, ih, List.replicate_succ', List.flatten_append]
      simp [hf n]

theorem flatten_replicate_nil {β : Type} (n : Nat) :
    (List.replicate n ([] : List β)).flatten = [] := by
  induction n with
  | zero => rfl
  | succ n ih => simp [List.replicate_succ, ih]

theorem trainBatchTrace_filter_core (r : Int) (i : Nat) :
    (trainBatchTrace r i).filter isLoopCoreOp
      = [Op.forwardPass, Op.lossCompute, Op.zeroGrad, Op.backwardPass,
         Op.optimStep, Op.schedulerStep] := by
  simp only [trainBatchTrace]
  by_cases h : i % 20 = 0 ∧ r = 0
  · rw [if_pos h]; rfl
  · rw [if_neg h]; rfl

theorem epochTrace_filter_core (r : Int) (nb : Nat) :
    (epochTrace r nb).filter isLoopCoreOp
      = (List.replicate nb
          [Op.forwardPass, Op.lossCompute, Op.zeroGrad, Op.backwardPass,
           Op.optimStep, Op.schedulerStep]).flatten ++ [Op.evalPass] := by
  simp only [epochTrace, List.filter_append]
  rw [filter_flatten_range _ _ _ _ (trainBatchTrace_filter_core r)]
  rfl

/-- C1: in every epoch the loop performs, per training batch and in this
order, forward pass, loss computation, gradient zeroing, backward pass,
optimizer step and scheduler step, and only after the last training batch
of the epoch does one evaluation pass run: restricted to those operations,
the trace of the whole training loop is, per epoch, `nb` copies of the
six-step batch sequence followed by a single evaluation pass. -/
theorem training_loop_op_order (r : Int) (nb ep : Nat) :
    (trainingTrace r nb ep).filter isLoopCoreOp
      = (List.replicate ep
          ((List.replicate nb
             [Op.forwardPass, Op.lossCompute, Op.zeroGrad, Op.backwardPass,
              Op.optimStep, Op.schedulerStep]).flatten
           ++ [Op.evalPass])).flatten := by
  simp only [trainingTrace]
  exact filter_flatten_range _ _ _ ep (fun _ => epochTrace_filter_core r nb)

theorem trainBatchTrace_filter_sync (r : Int) (i : Nat) :
    (trainBatchTrace r i).filter isSyncOrDownload
      = [Op.backwardPass, Op.gatherLabels, Op.gatherPreds, Op.gatherLossVals] := by
  simp only [trainBatchTrace]
  by_cases h : i % 20 = 0 ∧ r = 0
  · rw [if_pos h]; rfl
  · rw [if_neg h]; rfl

theorem epochTrace_filter_sync (r : Int) (nb : Nat) :
    (epochTrace r nb).filter isSyncOrDownload
      = (List.replicate nb
          [Op.backwardPass, Op.gatherLabels, Op.gatherPreds, Op.gatherLossVals]).flatten
        ++ [Op.evalPass] := by
  simp only [epochTrace, List.filter_append]
  rw [filter_flatten_range _ _ _ _ (trainBatchTrace_filter_sync r)]
  rfl

/-- C8 counterexample: at `local_rank = 0` with one batch and one epoch the
trace contains synchronization operations (the three per-step
`accelerator.gather` calls) that are none of the three claimed points
(barrier, per-step gradient reduction, per-epoch metric aggregation). -/
theorem sync_not_only_three_points :
    ¬ (∀ o ∈ programTrace 0 1 1, isSync o = true →
         o = Op.barrier ∨ o = Op.backwardPass ∨ o = Op.evalPass) := by
  decide

/-- C8 amended: control flow is strictly sequential per process, and the
synchronization points are exactly: the barrier bracketing the dataset
download (non-zero, non-`-1` ranks before it, rank 0 after it), gradient
reduction at each training step, the three metric gathers (labels,
predictions, loss values) at each training step, and metric aggregation in
the per-epoch evaluation pass. -/
theorem sync_point_characterization (r : Int) (nb ep : Nat) :
    (programTrace r nb ep).filter isSyncOrDownload
      = (if r = -1 ∨ r = 0 then [] else [Op.barrier]) ++
        [Op.downloadTrain, Op.downloadTest] ++
        (if r = 0 then [Op.barrier] else []) ++
        (List.replicate ep
          ((List.replicate nb
             [Op.backwardPass, Op.gatherLabels, Op.gatherPreds, Op.gatherLossVals]).flatten
           ++ [Op.evalPass])).flatten := by
  have fd : List.filter isSyncOrDownload [Op.downloadTrain, Op.downloadTest]
      = [Op.downloadTrain, Op.downloadTest] := rfl
  have fb : List.filter isSyncOrDownload [Op.barrier] = [Op.barrier] := rfl
  have fp : List.filter isSyncOrDownload [Op.printOut] = [] := rfl
  have fr0 : List.filter isSyncOrDownload
      [Op.printDuration, Op.plotLoss, Op.plotAccuracy, Op.plotLR,
       Op.saveFigure, Op.showFigure] = [] := rfl
  have fr1 : List.filter isSyncOrDownload [Op.printDuration] = [] := rfl
  simp only [programTrace, trainingTrace, List.filter_append]
  rw [filter_flatten_range _ _ _ _ (fun _ => epochTrace_filter_sync r nb)]
  by_cases h2 : r = 0
  · subst h2
    simp [reportTrace, fd, fb, fp, fr0]
  · by_cases h1 : r = -1
    · subst h1
      simp [reportTrace, fd, fb, fp, fr1]
    · have hor : ¬ (r = -1 ∨ r = 0) := by
        rintro (h | h)
        · exact h1 h
        · exact h2 h
      rw [if_neg hor, if_neg h2]
      simp [reportTrace, h2, fd, fb, fp, fr1]

theorem foldl_recordLR (g : Nat → Rat) (l : List Nat) (m : Metrics) :
    l.foldl (fun acc b => recordLR (g b) acc) m
      = { m with lr_decay_list := m.lr_decay_list ++ l.map g } := by
  induction l generalizing m with
  | nil => simp
  | cons a t ih =>
      simp only [List.foldl_cons, List.map_cons]
      rw [ih]
      simp [recordLR, List.append_assoc]

theorem runEpochMetrics_lengths (lrAt : Nat → Rat)
    (statsAt : Nat → Rat × Rat × Rat × Rat) (nb epoch : Nat) (m : Metrics) :
    ((runEpochMetrics lrAt statsAt nb epoch m).train_acc.length
        = m.train_acc.length + 1) ∧
    ((runEpochMetrics lrAt statsAt nb epoch m).train_loss.length
        = m.train_loss.length + 1) ∧
    ((runEpochMetrics lrAt statsAt nb epoch m).val_acc.length
        = m.val_acc.length + 1) ∧
    ((runEpochMetrics lrAt statsAt nb epoch m).val_loss.length
        = m.val_loss.length + 1) ∧
    ((runEpochMetrics lrAt statsAt nb epoch m).lr_decay_list.length
        = m.lr_decay_list.length + nb) := by
  simp [runEpochMetrics, foldl_recordLR]

/-- C2 counterexample: with two training batches per epoch and one epoch,
the per-epoch claim fails because `lr_decay_list` receives one element per
training batch — after one epoch of two batches it has length 2, not 1. -/
theorem lr_series_not_per_epoch :
    ¬ ((runTrainingMetrics (fun _ => (0 : Rat))
          (fun _ => ((0 : Rat), (0 : Rat), (0 : Rat), (0 : Rat))) 2 1).train_acc.length = 1 ∧
       (runTrainingMetrics (fun _ => (0 : Rat))
          (fun _ => ((0 : Rat), (0 : Rat), (0 : Rat), (0 : Rat))) 2 1).train_loss.length = 1 ∧
       (runTrainingMetrics (fun _ => (0 : Rat))
          (fun _ => ((0 : Rat), (0 : Rat), (0 : Rat), (0 : Rat))) 2 1).val_acc.length = 1 ∧
       (runTrainingMetrics (fun _ => (0 : Rat))
          (fun _ => ((0 : Rat), (0 : Rat), (0 : Rat), (0 : Rat))) 2 1).val_loss.length = 1 ∧
       (runTrainingMetrics (fun _ => (0 : Rat))
          (fun _ => ((0 : Rat), (0 : Rat), (0 : Rat), (0 : Rat))) 2 1).lr_decay_list.length = 1) := by
  decide

/-- C2 amended: for every epoch of the run exactly one element is appended
to each of the training-accuracy, training-loss, validation-accuracy and
validation-loss series — after `num_epoches` epochs each has length
`num_epoches` — while the learning-rate series receives one element per
training batch, so after `num_epoches` epochs of `nb` batches it has
length `num_epoches * nb`. -/
theorem metric_series_lengths (lrAt : Nat → Rat)
    (statsAt : Nat → Rat × Rat × Rat × Rat) (nb num_epoches : Nat) :
    ((runTrainingMetrics lrAt statsAt nb num_epoches).train_acc.length = num_epoches) ∧
    ((runTrainingMetrics lrAt statsAt nb num_epoches).train_loss.length = num_epoches) ∧
    ((runTrainingMetrics lrAt statsAt nb num_epoches).val_acc.length = num_epoches) ∧
    ((runTrainingMetrics lrAt statsAt nb num_epoches).val_loss.length = num_epoches) ∧
    ((runTrainingMetrics lrAt statsAt nb num_epoches).lr_decay_list.length
        = num_epoches * nb) := by
  induction num_epoches with
  | zero => simp [runTrainingMetrics, Metrics.init]
  | succ n ih =>
      have hstep : runTrainingMetrics lrAt statsAt nb (n + 1)
          = runEpochMetrics lrAt statsAt nb n (runTrainingMetrics lrAt statsAt nb n) := by
        simp [runTrainingMetrics, List.range_succ, List.foldl_concat]
      obtain ⟨h1, h2, h3, h4, h5⟩ := ih
      obtain ⟨g1, g2, g3, g4, g5⟩ :=
        runEpochMetrics_lengths lrAt statsAt nb n (runTrainingMetrics lrAt statsAt nb n)
      rw [hstep]
      refine ⟨?_, ?_, ?_, ?_, ?_⟩
      · rw [g1, h1]
      · rw [g2, h2]
      · rw [g3, h3]
      · rw [g4, h4]
      · rw [g5, h5, Nat.succ_mul]

/-- C3 counterexample: the evaluation pipeline contains no crop stage at
all (it resizes directly to 224x224), so the claim that both pipelines
apply the sequence decode, resize, crop, normalize is false. -/
theorem val_transforms_lack_crop :
    (∀ t ∈ val_transforms_list, Transform.kind t ≠ TKind.crop) ∧
    ¬ ((train_transforms_list.map Transform.kind).dedup
          = [TKind.decode, TKind.resizeK, TKind.crop, TKind.normalizeK] ∧
       (val_transforms_list.map Transform.kind).dedup
          = [TKind.decode, TKind.resizeK, TKind.crop, TKind.normalizeK]) := by
  decide

/-- C3 amended: the training pipeline applies the stage sequence decode,
resize, crop, normalize (the normalization stage comprising the 0-1
rescaling followed by mean/std normalization), while the evaluation
pipeline applies decode, resize, normalize with no crop. -/
theorem transform_stage_sequences :
    (train_transforms_list.map Transform.kind
        = [TKind.decode, TKind.resizeK, TKind.crop, TKind.normalizeK, TKind.normalizeK]) ∧
    ((train_transforms_list.map Transform.kind).dedup
        = [TKind.decode, TKind.resizeK, TKind.crop, TKind.normalizeK]) ∧
    (val_transforms_list.map Transform.kind
        = [TKind.decode, TKind.resizeK, TKind.normalizeK, TKind.normalizeK]) ∧
    ((val_transforms_list.map Transform.kind).dedup
        = [TKind.decode, TKind.resizeK, TKind.normalizeK]) := by
  decide

/-- C4: the assembly instantiates the pretrained ResNet-50, an SGD
optimizer with the configured learning rate and weight decay, and a
warmup-then-cosine schedule with 10 warmup steps whose total training-step
count is the number of training batches per epoch (which equals
`⌊dataset size / batch size⌋` since the training loader drops its last
incomplete batch) times the configured epoch count. -/
theorem assembly_parameters {α : Type} (ds : List α) (bs nw ep : Nat)
    (l wd : Rat) (hbs : 0 < bs) :
    model = ModelSpec.resnet50 "IMAGENET1K_V1" ∧
    buildOptimizer l wd = ⟨"SGD", l, wd⟩ ∧
    (buildScheduler (loaderLen (train_data_loader ds bs nw)) ep).shape
        = "cosine_with_warmup" ∧
    (buildScheduler (loaderLen (train_data_loader ds bs nw)) ep).num_warmup_steps = 10 ∧
    (buildScheduler (loaderLen (train_data_loader ds bs nw)) ep).num_training_steps
        = loaderLen (train_data_loader ds bs nw) * ep ∧
    loaderLen (train_data_loader ds bs nw) = ds.length / bs := by
  refine ⟨rfl, rfl, rfl, rfl, rfl, ?_⟩
  simp only [loaderLen, train_data_loader]
  exact batchesOf_drop_length bs hbs ds

theorem assembly_parameters_witness :
    model = ModelSpec.resnet50 "IMAGENET1K_V1" ∧
    buildOptimizer (1/100) 0 = ⟨"SGD", 1/100, 0⟩ ∧
    (buildScheduler (loaderLen (train_data_loader ([0, 1, 2] : List Nat) 2 0)) 3).shape
        = "cosine_with_warmup" ∧
    (buildScheduler (loaderLen (train_data_loader ([0, 1, 2] : List Nat) 2 0)) 3).num_warmup_steps
        = 10 ∧
    (buildScheduler (loaderLen (train_data_loader ([0, 1, 2] : List Nat) 2 0)) 3).num_training_steps
        = loaderLen (train_data_loader ([0, 1, 2] : List Nat) 2 0) * 3 ∧
    loaderLen (train_data_loader ([0, 1, 2] : List Nat) 2 0) = ([0, 1, 2] : List Nat).length / 2 :=
  assembly_parameters ([0, 1, 2] : List Nat) 2 0 3 (1/100) 0 (by decide)

/-- C5 counterexample: at rank 0 the post-loop reporting stage does plot
the three series and write the single image, but it never prints the peak
memory usage — that print happens inside the epoch loop — so the claim
that the reporting stage prints both peak memory and duration is false. -/
theorem report_stage_no_memory_print :
    ¬ ((reportOut 0 "./output").plotTitles = ["Loss", "Accuracy", "Learning Rate"] ∧
       (reportOut 0 "./output").images = [savefigPath "./output"] ∧
       Op.printDuration ∈ reportTrace 0 ∧
       Op.printMemory ∈ reportTrace 0) := by
  decide

/-- C5 amended: after the training loop finishes, the rank-0 process plots
the three time series (loss, accuracy, learning rate) and writes exactly
one output image, named after the script inside the configured save
directory, while non-zero ranks write no image; the post-loop stage prints
the wall-clock duration but not the peak memory usage, which is instead
printed exactly once per epoch inside the training loop. -/
theorem report_stage_outputs (r r₂ : Int) (sd : String) (nb : Nat)
    (hr : r = 0) (hr₂ : r₂ ≠ 0) :
    (reportOut r sd).plotTitles = ["Loss", "Accuracy", "Learning Rate"] ∧
    (reportOut r sd).images = [savefigPath sd] ∧
    Op.printDuration ∈ reportTrace r ∧
    Op.printMemory ∉ reportTrace r ∧
    (epochTrace r nb).filter (fun o => o == Op.printMemory) = [Op.printMemory] ∧
    (reportOut r₂ sd).images = [] := by
  have hbatch : ∀ i : Nat,
      (trainBatchTrace r i).filter (fun o => o == Op.printMemory) = [] := by
    intro i
    show List.filter (fun o => o == Op.printMemory)
        ([Op.lrRecord, Op.forwardPass, Op.lossCompute, Op.zeroGrad,
          Op.backwardPass, Op.optimStep,
          Op.gatherLabels, Op.gatherPreds, Op.gatherLossVals] ++
         (if i % 20 = 0 ∧ r = 0 then [Op.printOut] else []) ++
         [Op.schedulerStep]) = []
    by_cases h : i % 20 = 0 ∧ r = 0
    · rw [if_pos h]; rfl
    · rw [if_neg h]; rfl
  subst hr
  refine ⟨rfl, rfl, by decide, by decide, ?_, ?_⟩
  · simp only [epochTrace, List.filter_append]
    rw [filter_flatten_range _ _ _ _ hbatch, flatten_replicate_nil]
    rfl
  · simp only [reportOut]
    rw [if_neg hr₂]

theorem report_stage_outputs_witness :
    (reportOut 0 "./output").plotTitles = ["Loss", "Accuracy", "Learning Rate"] ∧
    (reportOut 0 "./output").images = [savefigPath "./output"] ∧
    Op.printDuration ∈ reportTrace 0 ∧
    Op.printMemory ∉ reportTrace 0 ∧
    (epochTrace 0 3).filter (fun o => o == Op.printMemory) = [Op.printMemory] ∧
    (reportOut 1 "./output").images = [] :=
  report_stage_outputs 0 1 "./output" 3 rfl (by decide)

/-- C6: the configuration loader extracts exactly the seven hyperparameters
device list, batch size, worker count, epoch count, learning rate, weight
decay and output directory, each from the corresponding key of the YAML
document, and depends on nothing else in the document: two documents that
agree on those seven keys load to identical configurations. -/
theorem loadConfig_exact_keys (d d₁ d₂ : CfgDoc)
    (h : ∀ k ∈ configKeys, cfgGet d₁ k = cfgGet d₂ k) :
    (loadConfig d).visible_device = cfgGet d "device" ∧
    (loadConfig d).batchsize = cfgGet d "batch_size" ∧
    (loadConfig d).num_workers = cfgGet d "num_workers" ∧
    (loadConfig d).num_epoches = cfgGet d "epoch" ∧
    (loadConfig d).lr = cfgGet d "lr" ∧
    (loadConfig d).weight_decay = cfgGet d "weight_decay" ∧
    (loadConfig d).save_dir = cfgGet d "save_dir" ∧
    loadConfig d₁ = loadConfig d₂ := by
  refine ⟨rfl, rfl, rfl, rfl, rfl, rfl, rfl, ?_⟩
  have hd := h "device" (by simp [configKeys])
  have hb := h "batch_size" (by simp [configKeys])
  have hw := h "num_workers" (by simp [configKeys])
  have he := h "epoch" (by simp [configKeys])
  have hl := h "lr" (by simp [configKeys])
  have hwd := h "weight_decay" (by simp [configKeys])
  have hs := h "save_dir" (by simp [configKeys])
  simp [loadConfig, hd, hb, hw, he, hl, hwd, hs]

theorem loadConfig_exact_keys_witness :
    (loadConfig [("batch_size", CfgValue.natV 4)]).visible_device
        = cfgGet [("batch_size", CfgValue.natV 4)] "device" ∧
    (loadConfig [("batch_size", CfgValue.natV 4)]).batchsize
        = cfgGet [("batch_size", CfgValue.natV 4)] "batch_size" ∧
    (loadConfig [("batch_size", CfgValue.natV 4)]).num_workers
        = cfgGet [("batch_size", CfgValue.natV 4)] "num_workers" ∧
    (loadConfig [("batch_size", CfgValue.natV 4)]).num_epoches
        = cfgGet [("batch_size", CfgValue.natV 4)] "epoch" ∧
    (loadConfig [("batch_size", CfgValue.natV 4)]).lr
        = cfgGet [("batch_size", CfgValue.natV 4)] "lr" ∧
    (loadConfig [("batch_size", CfgValue.natV 4)]).weight_decay
        = cfgGet [("batch_size", CfgValue.natV 4)] "weight_decay" ∧
    (loadConfig [("batch_size", CfgValue.natV 4)]).save_dir
        = cfgGet [("batch_size", CfgValue.natV 4)] "save_dir" ∧
    loadConfig [] = loadConfig [] :=
  loadConfig_exact_keys [("batch_size", CfgValue.natV 4)] [] [] (fun _ _ => rfl)

/-- C7: the training loader is constructed with shuffling enabled and the
test loader with shuffling disabled, and the test loader's batch stream
concatenates back to the test dataset in its original order. -/
theorem loader_shuffle_settings {α : Type} (ds_tr ds_te : List α)
    (bs nw : Nat) (hbs : 0 < bs) :
    (train_data_loader ds_tr bs nw).shuffle = true ∧
    (test_data_loader ds_te bs nw).shuffle = false ∧
    (batchesOf (test_data_loader ds_te bs nw).batch_size
        (test_data_loader ds_te bs nw).drop_last
        (test_data_loader ds_te bs nw).dataset).flatten = ds_te := by
  exact ⟨rfl, rfl, batchesOf_keep_flatten bs hbs ds_te⟩

theorem loader_shuffle_settings_witness :
    (train_data_loader ([0, 1, 2] : List Nat) 2 0).shuffle = true ∧
    (test_data_loader ([3, 4, 5] : List Nat) 2 0).shuffle = false ∧
    (batchesOf (test_data_loader ([3, 4, 5] : List Nat) 2 0).batch_size
        (test_data_loader ([3, 4, 5] : List Nat) 2 0).drop_last
        (test_data_loader ([3, 4, 5] : List Nat) 2 0).dataset).flatten
      = ([3, 4, 5] : List Nat) :=
  loader_shuffle_settings ([0, 1, 2] : List Nat) ([3, 4, 5] : List Nat) 2 0 (by decide)

/-- C9: every batch the training loader yields — over any shuffled order of
the training set — has exactly `batch_size` samples, the incomplete tail
being dropped (the batch count is `⌊n / batch_size⌋`), while the test
loader keeps its final partial batch: its batches concatenate to the whole
test set, so each test sample occurs in the batch stream exactly as often
as in the dataset. -/
theorem batch_size_invariants {α : Type} [DecidableEq α]
    (ds_tr ds_te order b : List α) (x : α) (bs nw : Nat) (hbs : 0 < bs)
    (_hord : order.Perm ds_tr)
    (hb : b ∈ batchesOf (train_data_loader ds_tr bs nw).batch_size
        (train_data_loader ds_tr bs nw).drop_last order) :
    b.length = bs ∧
    loaderLen (train_data_loader ds_tr bs nw) = ds_tr.length / bs ∧
    (batchesOf (test_data_loader ds_te bs nw).batch_size
        (test_data_loader ds_te bs nw).drop_last
        (test_data_loader ds_te bs nw).dataset).flatten = ds_te ∧
    ((batchesOf bs false ds_te).map (List.count x)).sum = ds_te.count x := by
  refine ⟨batchesOf_drop_mem_length bs order b hb, ?_,
    batchesOf_keep_flatten bs hbs ds_te, ?_⟩
  · simp only [loaderLen, train_data_loader]
    exact batchesOf_drop_length bs hbs ds_tr
  · conv_rhs => rw [← batchesOf_keep_flatten bs hbs ds_te]
    rw [List.count_flatten]

theorem batch_size_invariants_witness :
    ([1, 0] : List Nat).length = 2 ∧
    loaderLen (train_data_loader ([0, 1, 2] : List Nat) 2 0) = ([0, 1, 2] : List Nat).length / 2 ∧
    (batchesOf (test_data_loader ([3, 4, 5] : List Nat) 2 0).batch_size
        (test_data_loader ([3, 4, 5] : List Nat) 2 0).drop_last
        (test_data_loader ([3, 4, 5] : List Nat) 2 0).dataset).flatten
      = ([3, 4, 5] : List Nat) ∧
    ((batchesOf 2 false ([3, 4, 5] : List Nat)).map (List.count 3)).sum
      = ([3, 4, 5] : List Nat).count 3 :=
  batch_size_invariants ([0, 1, 2] : List Nat) ([3, 4, 5] : List Nat)
    ([1, 0, 2] : List Nat) ([1, 0] : List Nat) 3 2 0 (by decide)
    (by decide) (by simp [batchesOf, train_data_loader])

/-- C10: the device entry of the configuration is read into
`visible_device` and never used afterwards: every artifact the run
produces downstream of the configuration reads is unchanged when only the
device entry differs, whether the entry is overwritten in the loaded
configuration or supplied through a different document key binding. -/
theorem device_key_unused {α β : Type} (c : RawConfig) (v : Option CfgValue)
    (doc : CfgDoc) (dv : CfgValue) (local_rank : Int)
    (train_ds : List α) (test_ds : List β)
    (lrAt : Nat → Rat) (statsAt : Nat → Rat × Rat × Rat × Rat) :
    (runFromConfig { c with visible_device := v } local_rank train_ds test_ds lrAt statsAt
        = runFromConfig c local_rank train_ds test_ds lrAt statsAt) ∧
    (runFromConfig (loadConfig (("device", dv) :: doc)) local_rank train_ds test_ds lrAt statsAt
        = runFromConfig (loadConfig doc) local_rank train_ds test_ds lrAt statsAt) :=
  ⟨rfl, rfl⟩

end AccelerateDDP
